import Mathlib

/-!
Verification of `egui_collapsible_dock` (`src/dock_collapsible.rs`) against its
natural-language specification.

Shallow embedding notes:
* `f32` sizes and animation values are modelled as `ℚ`.
* The egui `HashMap<PanelSide, PanelState>` is modelled as a record of four
  `Option PanelState` fields (`PanelMap`), keeping the presence/absence
  behaviour of `get`/`get_mut` faithful.
* The egui persistent memory (`ctx.memory`) is modelled as the single entry it
  holds for this panel's key: an `Option CollapsibleDockState`.
  `get_persisted_mut_or_default` becomes `Option.getD` with the default state.
* External per-frame effects of the toolkit (the continuous animator value,
  the realized rectangle extent returned by the `SidePanel`/`TopBottomPanel`
  primitive, and button clicks observed while rendering the collapsed strip)
  enter the model as a `FrameInput` record.
* `println!` diagnostics are modelled as a `Bool` flag where a claim needs
  them; indexing `self.collapsible_state.panels[&self.side]` (which panics on
  a missing key) is modelled by an `Option` result, `none` meaning the panic.
-/

/-- Rust `ease_in_out_cubic` (dock_collapsible.rs lines 8-14). -/
def ease_in_out_cubic (t : ℚ) : ℚ :=
  if t < 1/2 then 4 * t * t * t else 1 - (-2 * t + 2) ^ 3 / 2

/-- Rust enum `PanelSide`. -/
inductive PanelSide : Type where
  | Left : PanelSide
  | Right : PanelSide
  | Top : PanelSide
  | Bottom : PanelSide
deriving DecidableEq, Repr

/-- Rust struct `PanelState`. -/
structure PanelState : Type where
  collapsed : Bool
  size : ℚ
  min_size : ℚ
  max_size : Option ℚ
  resizable : Bool
deriving DecidableEq, Repr

/-- Rust `impl Default for PanelState` (lines 40-50). -/
def PanelState.default : PanelState :=
  { collapsed := false, size := 300, min_size := 150, max_size := none, resizable := true }

/-- Model of `HashMap<PanelSide, PanelState>`: one optional entry per side. -/
structure PanelMap : Type where
  left : Option PanelState
  right : Option PanelState
  top : Option PanelState
  bottom : Option PanelState
deriving DecidableEq, Repr

/-- `HashMap::get` on the side key. -/
def PanelMap.get (m : PanelMap) (side : PanelSide) : Option PanelState :=
  match side with
  | PanelSide.Left => m.left
  | PanelSide.Right => m.right
  | PanelSide.Top => m.top
  | PanelSide.Bottom => m.bottom

/-- Replacing the entry of one side key (the effect of writing through `get_mut`). -/
def PanelMap.set (m : PanelMap) (side : PanelSide) (v : Option PanelState) : PanelMap :=
  match side with
  | PanelSide.Left => { m with left := v }
  | PanelSide.Right => { m with right := v }
  | PanelSide.Top => { m with top := v }
  | PanelSide.Bottom => { m with bottom := v }

/-- Rust struct `CollapsibleDockState`. -/
structure CollapsibleDockState : Type where
  panels : PanelMap
  animation_duration : ℚ
  persist_state : Bool
deriving DecidableEq, Repr

/-- Rust `impl Default for CollapsibleDockState` (lines 63-77): all four sides
present with the default panel state. -/
def CollapsibleDockState.default : CollapsibleDockState :=
  { panels :=
      { left := some PanelState.default, right := some PanelState.default,
        top := some PanelState.default, bottom := some PanelState.default },
    animation_duration := 1/5, persist_state := true }

/-- Rust `CollapsibleDockState::new` (lines 81-83). -/
def CollapsibleDockState.new : CollapsibleDockState :=
  CollapsibleDockState.default

/-- Rust `CollapsibleDockState::set_panel_collapsed` (lines 86-90). -/
def CollapsibleDockState.set_panel_collapsed (st : CollapsibleDockState) (side : PanelSide)
    (collapsed : Bool) : CollapsibleDockState :=
  match st.panels.get side with
  | some panel => { st with panels := st.panels.set side (some { panel with collapsed := collapsed }) }
  | none => st

/-- Rust `CollapsibleDockState::is_panel_collapsed` (lines 93-95). -/
def CollapsibleDockState.is_panel_collapsed (st : CollapsibleDockState) (side : PanelSide) : Bool :=
  match st.panels.get side with
  | some panel => panel.collapsed
  | none => false

/-- Rust `CollapsibleDockState::toggle_panel` (lines 98-102). -/
def CollapsibleDockState.toggle_panel (st : CollapsibleDockState) (side : PanelSide) :
    CollapsibleDockState :=
  match st.panels.get side with
  | some panel => { st with panels := st.panels.set side (some { panel with collapsed := !panel.collapsed }) }
  | none => st

/-- Rust `CollapsibleDockState::set_panel_size` (lines 105-126): a size below
100 is replaced by 300, then the result is clamped to `max_size` if present.
No clamp to `min_size` is applied. -/
def CollapsibleDockState.set_panel_size (st : CollapsibleDockState) (side : PanelSide)
    (size : ℚ) : CollapsibleDockState :=
  match st.panels.get side with
  | some panel =>
      let validated_size : ℚ := if size < 100 then 300 else size
      let clamped : ℚ :=
        match panel.max_size with
        | some max_size => min validated_size max_size
        | none => validated_size
      { st with panels := st.panels.set side (some { panel with size := clamped }) }
  | none => st

/-- Rust `CollapsibleDockState::get_panel_size` (lines 129-134). -/
def CollapsibleDockState.get_panel_size (st : CollapsibleDockState) (side : PanelSide) : ℚ :=
  match st.panels.get side with
  | some panel => panel.size
  | none => PanelState.default.size

/-- Rust `CollapsibleDockState::save_to_memory` (lines 137-144), acting on the
store entry for this panel's key: writes only when `persist_state` is set. -/
def CollapsibleDockState.save_to_memory (st : CollapsibleDockState)
    (store : Option CollapsibleDockState) : Option CollapsibleDockState :=
  if st.persist_state then some st else store

/-- Rust `CollapsibleDockState::load_from_memory` (lines 147-153):
`get_persisted_mut_or_default` yields the stored value or the default. -/
def CollapsibleDockState.load_from_memory (store : Option CollapsibleDockState) :
    CollapsibleDockState :=
  store.getD CollapsibleDockState.default

/-- Rust struct `CollapsibleButton` (lines 157-167). -/
structure CollapsibleButton : Type where
  text : String
  icon : Option String
  tooltip : Option String
  selected : Bool
deriving DecidableEq, Repr

/-- Rust `CollapsibleButton::new` (lines 170-177). -/
def CollapsibleButton.new (text : String) : CollapsibleButton :=
  { text := text, icon := none, tooltip := none, selected := false }

/-- Rust struct `CollapsibleDockPanel` (lines 196-215).  The `dock_state`,
`state_id` and `frame` fields are opaque external values (egui_dock state, an
egui identifier and a style frame) that none of the verified logic inspects,
so they are omitted from the embedding. -/
structure CollapsibleDockPanel : Type where
  side : PanelSide
  collapsible_state : CollapsibleDockState
  buttons : List CollapsibleButton
  previous_collapsed : Bool
  state_loaded : Bool
  active_button_index : Option Nat
deriving DecidableEq, Repr

/-- Rust `CollapsibleDockPanel::new` (lines 219-231). -/
def CollapsibleDockPanel.new (side : PanelSide) : CollapsibleDockPanel :=
  { side := side, collapsible_state := CollapsibleDockState.new, buttons := [],
    previous_collapsed := false, state_loaded := false, active_button_index := some 0 }

/-- Rust `CollapsibleDockPanel::add_button` (lines 246-249). -/
def CollapsibleDockPanel.add_button (p : CollapsibleDockPanel) (button : CollapsibleButton) :
    CollapsibleDockPanel :=
  { p with buttons := p.buttons ++ [button] }

/-- Rust `CollapsibleDockPanel::with_min_size` (lines 252-261). -/
def CollapsibleDockPanel.with_min_size (p : CollapsibleDockPanel) (min_size : ℚ) :
    CollapsibleDockPanel :=
  match p.collapsible_state.panels.get p.side with
  | some panel =>
      let panel := { panel with min_size := min_size }
      let panel :=
        if panel.size < min_size * (3/2) then { panel with size := max (min_size * 2) 300 }
        else panel
      { p with collapsible_state :=
          { p.collapsible_state with panels := p.collapsible_state.panels.set p.side (some panel) } }
  | none => p

/-- Rust `CollapsibleDockPanel::with_max_size` (lines 264-269). -/
def CollapsibleDockPanel.with_max_size (p : CollapsibleDockPanel) (max_size : ℚ) :
    CollapsibleDockPanel :=
  match p.collapsible_state.panels.get p.side with
  | some panel =>
      { p with collapsible_state :=
          { p.collapsible_state with
            panels := p.collapsible_state.panels.set p.side (some { panel with max_size := some max_size }) } }
  | none => p

/-- Rust `CollapsibleDockPanel::resizable` (lines 272-277). -/
def CollapsibleDockPanel.resizable (p : CollapsibleDockPanel) (flag : Bool) :
    CollapsibleDockPanel :=
  match p.collapsible_state.panels.get p.side with
  | some panel =>
      { p with collapsible_state :=
          { p.collapsible_state with
            panels := p.collapsible_state.panels.set p.side (some { panel with resizable := flag }) } }
  | none => p

/-- Rust `CollapsibleDockPanel::is_collapsed` (lines 280-282). -/
def CollapsibleDockPanel.is_collapsed (p : CollapsibleDockPanel) : Bool :=
  p.collapsible_state.is_panel_collapsed p.side

/-- Rust `CollapsibleDockPanel::toggle` (lines 285-287). -/
def CollapsibleDockPanel.toggle (p : CollapsibleDockPanel) : CollapsibleDockPanel :=
  { p with collapsible_state := p.collapsible_state.toggle_panel p.side }

/-- Rust `CollapsibleDockPanel::set_collapsed` (lines 290-293). -/
def CollapsibleDockPanel.set_collapsed (p : CollapsibleDockPanel) (collapsed : Bool) :
    CollapsibleDockPanel :=
  { p with collapsible_state := p.collapsible_state.set_panel_collapsed p.side collapsed }

/-- Rust `CollapsibleDockPanel::get_size` (lines 296-298). -/
def CollapsibleDockPanel.get_size (p : CollapsibleDockPanel) : ℚ :=
  p.collapsible_state.get_panel_size p.side

/-- Rust `CollapsibleDockPanel::set_size` (lines 301-303). -/
def CollapsibleDockPanel.set_size (p : CollapsibleDockPanel) (size : ℚ) : CollapsibleDockPanel :=
  { p with collapsible_state := p.collapsible_state.set_panel_size p.side size }

/-- Rust `CollapsibleDockPanel::set_active_button` (lines 306-310). -/
def CollapsibleDockPanel.set_active_button (p : CollapsibleDockPanel) (index : Nat) :
    CollapsibleDockPanel :=
  if index < p.buttons.length then { p with active_button_index := some index } else p

/-- Rust `CollapsibleDockPanel::get_active_button` (lines 313-315). -/
def CollapsibleDockPanel.get_active_button (p : CollapsibleDockPanel) : Option Nat :=
  p.active_button_index

/-- External per-frame inputs of `show_panel_unified`: the continuous animator
value returned by `ctx.animate_value_with_time`, the extent of the realized
rectangle along the panel's axis (`rect.width()`/`rect.height()`), the index of
a collapsed-strip button clicked this frame (always an index of an existing
button, since clicks arise from iterating `self.buttons`), and whether the
extra expand caret of the horizontal (Top/Bottom) strip was clicked. -/
structure FrameInput : Type where
  animation_value : ℚ
  realized_extent : ℚ
  clicked_button : Option Nat
  expand_clicked : Bool
deriving DecidableEq, Repr

/-- What is rendered inside the region, by animation progress (lines 459-470). -/
inductive ContentKind : Type where
  | collapsedStrip : ContentKind
  | spinner : ContentKind
  | expanded : ContentKind
deriving DecidableEq, Repr

/-- The extent constraints handed to the external region primitive
(`min_width`/`max_width`/`default_width` resp. the height variants), plus its
`resizable` flag.  `max_extent = none` models `f32::INFINITY`. -/
structure RegionConstraints : Type where
  min_extent : ℚ
  max_extent : Option ℚ
  default_extent : ℚ
  resizable : Bool
deriving DecidableEq, Repr

/-- Everything observable about one rendered frame of the region. -/
structure RenderInfo : Type where
  constraints : RegionConstraints
  content : ContentKind
  animated_size : ℚ
deriving DecidableEq, Repr

/-- Collapsed extent (lines 390-392): `icon_size + padding * 2.0` with
`icon_size = 14.0`, `padding = 6.0`. -/
def collapsed_panel_size : ℚ := 14 + 6 * 2

/-- Validation of the saved size inside `show_panel_unified` (lines 396-406):
below 100 it is replaced by `max(min_size * 2, 300)`. -/
def validate_saved_size (saved_size min_size : ℚ) : ℚ :=
  if saved_size < 100 then max (min_size * 2) 300 else saved_size

/-- Animated extent (lines 408-417). -/
def animated_panel_size (animation_value validated_saved_size : ℚ) : ℚ :=
  if animation_value < 1/100 then collapsed_panel_size
  else if animation_value > 99/100 then validated_saved_size
  else
    collapsed_panel_size +
      (validated_saved_size - collapsed_panel_size) * ease_in_out_cubic animation_value

/-- The `is_resizable` computation, identical for all four sides
(lines 437, 475, 513, 551). -/
def panel_is_resizable (is_collapsed resizable_flag : Bool) (animation_value : ℚ) : Bool :=
  !is_collapsed && resizable_flag && decide (animation_value > 99/100)

/-- The extent constraints chosen for the region, identical for all four sides
(lines 444-455 and their copies). -/
def panel_constraints (is_resizable : Bool) (panel_state : PanelState)
    (validated_saved_size animated_size : ℚ) : RegionConstraints :=
  if is_resizable then
    { min_extent := panel_state.min_size, max_extent := panel_state.max_size,
      default_extent := validated_saved_size, resizable := true }
  else
    { min_extent := animated_size, max_extent := some animated_size,
      default_extent := animated_size, resizable := false }

/-- Content dispatch by animation progress (lines 459-470 and their copies). -/
def panel_content (animation_value : ℚ) : ContentKind :=
  if animation_value < 3/10 then ContentKind.collapsedStrip
  else if animation_value > 7/10 then ContentKind.expanded
  else ContentKind.spinner

/-- State effect of the extra expand caret drawn by the horizontal
(Top/Bottom) collapsed strip (lines 711-718): clicking it un-collapses the
panel. -/
def expand_caret_step (p : CollapsibleDockPanel) (input : FrameInput) :
    CollapsibleDockPanel :=
  match p.side with
  | PanelSide.Top => if input.expand_clicked then p.set_collapsed false else p
  | PanelSide.Bottom => if input.expand_clicked then p.set_collapsed false else p
  | _ => p

/-- State effect of clicking collapsed-strip button `i` (lines 677-701,
722-743): the panel is un-collapsed and `i` becomes the active button.  A
click always targets an existing button, since clicks arise from iterating
`self.buttons`. -/
def button_click_step (p : CollapsibleDockPanel) (input : FrameInput) :
    CollapsibleDockPanel :=
  match input.clicked_button with
  | some i =>
      if i < p.buttons.length then
        { p.set_collapsed false with active_button_index := some i }
      else p
  | none => p

/-- State effects of `show_collapsed_content` (lines 650-748). -/
def apply_collapsed_clicks (p : CollapsibleDockPanel) (input : FrameInput) :
    CollapsibleDockPanel :=
  button_click_step (expand_caret_step p input) input

/-- Rust `f32::abs`, written out so that it evaluates by kernel reduction. -/
def f32_abs (x : ℚ) : ℚ := if x < 0 then -x else x

/-- Size reconciliation after rendering (lines 589-604): when not collapsed and
the realized extent differs from the stored size by more than 5, store the
realized extent through `set_panel_size`. -/
def reconcile_size (st : CollapsibleDockState) (side : PanelSide) (is_collapsed : Bool)
    (actual_size : ℚ) : CollapsibleDockState :=
  if is_collapsed then st
  else
    let current_saved_size := st.get_panel_size side
    if f32_abs (actual_size - current_saved_size) > 5 then st.set_panel_size side actual_size
    else st

/-- Rust `CollapsibleDockPanel::show_panel_unified` (lines 365-607).
`none` models the panic of `self.collapsible_state.panels[&self.side]` on a
missing entry (line 394); otherwise the updated panel and the rendered-region
record are returned.  All four sides share this body (the per-side wrappers at
lines 610-647 all delegate here). -/
def show_panel_unified (p : CollapsibleDockPanel) (is_collapsed : Bool) (input : FrameInput) :
    Option (CollapsibleDockPanel × RenderInfo) :=
  match p.collapsible_state.panels.get p.side with
  | none => none
  | some panel_state =>
      let animation_value := input.animation_value
      let saved_size := p.get_size
      let validated_saved_size := validate_saved_size saved_size panel_state.min_size
      let animated_size := animated_panel_size animation_value validated_saved_size
      let is_resizable := panel_is_resizable is_collapsed panel_state.resizable animation_value
      let constraints := panel_constraints is_resizable panel_state validated_saved_size animated_size
      let content := panel_content animation_value
      let p := if animation_value < 3/10 then apply_collapsed_clicks p input else p
      let p :=
        { p with collapsible_state :=
            reconcile_size p.collapsible_state p.side is_collapsed input.realized_extent }
      some (p, { constraints := constraints, content := content, animated_size := animated_size })

/-- The lazy first-call load block of `show` (lines 319-340).  Returns the
updated panel and whether the invalid-size diagnostic was printed.  Only the
panel's own side's `collapsed` and `size` are copied from the store; a loaded
size below 100 is discarded in favour of `max(min_size * 2, 300)`. -/
def load_panel_state (p : CollapsibleDockPanel) (store : Option CollapsibleDockState) :
    CollapsibleDockPanel × Bool :=
  let loaded_state := CollapsibleDockState.load_from_memory store
  match loaded_state.panels.get p.side with
  | none => (p, false)
  | some panel_state =>
      match p.collapsible_state.panels.get p.side with
      | none => (p, false)
      | some our_panel_state =>
          let our_panel_state := { our_panel_state with collapsed := panel_state.collapsed }
          let sized : PanelState × Bool :=
            if 100 ≤ panel_state.size then
              ({ our_panel_state with size := panel_state.size }, false)
            else
              ({ our_panel_state with size := max (our_panel_state.min_size * 2) 300 }, true)
          ({ p with collapsible_state :=
              { p.collapsible_state with
                panels := p.collapsible_state.panels.set p.side (some sized.1) } },
           sized.2)

/-- The load-once wrapper at the top of `show` (lines 319-340): on the first
call the persisted state is pulled in, `previous_collapsed` refreshed and
`state_loaded` set; afterwards the store is not consulted. -/
def CollapsibleDockPanel.after_load (p : CollapsibleDockPanel)
    (store : Option CollapsibleDockState) : CollapsibleDockPanel × Bool :=
  if p.state_loaded then (p, false)
  else
    let loaded := load_panel_state p store
    ({ loaded.1 with previous_collapsed := loaded.1.is_collapsed, state_loaded := true },
     loaded.2)

/-- Observable outcome of one `show` call: the panel afterwards, the store
entry afterwards, the returned `Option<Response>` (with the render record as
the response payload), and whether the load diagnostic was printed. -/
structure ShowOutcome : Type where
  panel : CollapsibleDockPanel
  store : Option CollapsibleDockState
  response : Option RenderInfo
  load_diag : Bool
deriving DecidableEq, Repr

/-- Rust `CollapsibleDockPanel::show` (lines 318-362).  `none` models the
panic inside `show_panel_unified`.  Note the early `return None` at line 347
(collapsed with no buttons) happens BEFORE `save_to_memory` at line 359, so in
that path the store is left untouched. -/
def CollapsibleDockPanel.show (p : CollapsibleDockPanel) (store : Option CollapsibleDockState)
    (input : FrameInput) : Option ShowOutcome :=
  let loaded := p.after_load store
  let q := loaded.1
  let is_collapsed := q.is_collapsed
  let q := { q with previous_collapsed := is_collapsed }
  if is_collapsed && q.buttons.isEmpty then
    some { panel := q, store := store, response := none, load_diag := loaded.2 }
  else
    match show_panel_unified q is_collapsed input with
    | none => none
    | some (q2, render) =>
        some { panel := q2,
               store := q2.collapsible_state.save_to_memory store,
               response := some render, load_diag := loaded.2 }

/-- Reference form of the easing curve, transcribed from the specification
text: `f(t) = 4t³` for `t < 0.5`, else `1 - (-2t+2)³/2`. -/
def ease_in_out_cubic_spec (t : ℚ) : ℚ :=
  if t < 1/2 then 4 * t ^ 3 else 1 - (-2 * t + 2) ^ 3 / 2

/-- A frame input mid-animation: animator value 1/2, realized extent 300. -/
def input_mid : FrameInput :=
  { animation_value := 1/2, realized_extent := 300, clicked_button := none,
    expand_clicked := false }

/-- A frame input at rest (fully expanded): animator value 1, realized
extent 300. -/
def input_done : FrameInput :=
  { animation_value := 1, realized_extent := 300, clicked_button := none,
    expand_clicked := false }

/-- A fresh left panel whose first `show` has already run (so the lazy load is
behind it), still expanded. -/
def loaded_left_panel : CollapsibleDockPanel :=
  { CollapsibleDockPanel.new PanelSide.Left with state_loaded := true }

/-- A fresh left panel that is collapsed, has no buttons, and has already
loaded: the configuration that takes the early-return path of `show`. -/
def collapsed_empty_panel : CollapsibleDockPanel :=
  { (CollapsibleDockPanel.new PanelSide.Left).set_collapsed true with state_loaded := true }

/-- The outcome `show` produces for `loaded_left_panel` on an empty store with
`input_done` (computed by evaluation, checked by `decide` where used). -/
def loaded_left_outcome : ShowOutcome :=
  { panel := loaded_left_panel,
    store := some loaded_left_panel.collapsible_state,
    response := some
      { constraints :=
          { min_extent := 150, max_extent := none, default_extent := 300, resizable := true },
        content := ContentKind.expanded, animated_size := 300 },
    load_diag := false }

/-- The outcome `show` produces for `collapsed_empty_panel` on an empty store. -/
def collapsed_empty_outcome : ShowOutcome :=
  { panel := { collapsed_empty_panel with previous_collapsed := true },
    store := none, response := none, load_diag := false }

/-- A stale persisted aggregate whose left entry carries the implausible
size 50 (below the 100 floor). -/
def stale_store_state : CollapsibleDockState :=
  { CollapsibleDockState.new with
    panels := CollapsibleDockState.new.panels.set PanelSide.Left
      (some { PanelState.default with size := 50 }) }

/-- The render record produced for a fresh left panel, not collapsed, at
animation value 1/2 with realized extent 300. -/
def mid_render : RenderInfo :=
  { constraints :=
      { min_extent := 163, max_extent := some 163, default_extent := 163, resizable := false },
    content := ContentKind.spinner, animated_size := 163 }

/-! ## Helper lemmas -/

theorem f32_abs_eq_abs (x : ℚ) : f32_abs x = |x| := by
  unfold f32_abs
  rcases lt_or_ge x 0 with h | h
  · rw [if_pos h, abs_of_neg h]
  · rw [if_neg (not_lt.mpr h), abs_of_nonneg h]

theorem PanelMap.get_set_self (m : PanelMap) (side : PanelSide) (v : Option PanelState) :
    (m.set side v).get side = v := by
  cases side <;> rfl

/-- Writing a size through `set_panel_size` on a present side stores the
validated value (below 100 replaced by 300) clamped to `max_size`. -/
theorem get_set_panel_size (st : CollapsibleDockState) (side : PanelSide) (panel : PanelState)
    (s : ℚ) (hside : st.panels.get side = some panel) :
    (st.set_panel_size side s).get_panel_size side =
      (match panel.max_size with
       | some max_size => min (if s < 100 then (300 : ℚ) else s) max_size
       | none => if s < 100 then (300 : ℚ) else s) := by
  unfold CollapsibleDockState.set_panel_size
  rw [hside]
  unfold CollapsibleDockState.get_panel_size
  simp only [PanelMap.get_set_self]

/-! ## C5: the easing curve -/

/-- C5: the easing function matches the reference definition (`4t³` for
`t < 0.5`, else `1 - (-2t+2)³/2`), satisfies `ease 0 = 0`, `ease 1 = 1`,
`ease (1/2) = 1/2`, and is monotonically non-decreasing on `[0, 1]`. -/
theorem ease_in_out_cubic_properties :
    (∀ t : ℚ, ease_in_out_cubic t = ease_in_out_cubic_spec t)
    ∧ ease_in_out_cubic 0 = 0
    ∧ ease_in_out_cubic 1 = 1
    ∧ ease_in_out_cubic (1/2) = 1/2
    ∧ ∀ s t : ℚ, 0 ≤ s → s ≤ t → t ≤ 1 →
        ease_in_out_cubic s ≤ ease_in_out_cubic t := by
  refine ⟨?_, ?_, ?_, ?_, ?_⟩
  · intro t
    unfold ease_in_out_cubic ease_in_out_cubic_spec
    split <;> ring
  · norm_num [ease_in_out_cubic]
  · norm_num [ease_in_out_cubic]
  · norm_num [ease_in_out_cubic]
  · intro s t hs hst ht
    have hts : 0 ≤ t := hs.trans hst
    unfold ease_in_out_cubic
    by_cases h1 : s < 1/2 <;> by_cases h2 : t < 1/2
    · rw [if_pos h1, if_pos h2]
      have key : 0 ≤ (t - s) * (s * s + s * t + t * t) :=
        mul_nonneg (by linarith)
          (add_nonneg (add_nonneg (mul_nonneg hs hs) (mul_nonneg hs hts))
            (mul_nonneg hts hts))
      nlinarith [key]
    · rw [if_pos h1, if_neg h2]
      push_neg at h2
      have hleft : 4 * s * s * s ≤ 1/2 := by nlinarith [mul_nonneg hs hs]
      have hu0 : (0 : ℚ) ≤ 2 - 2 * t := by linarith
      have hu1 : 2 - 2 * t ≤ 1 := by linarith
      have hcube : 0 ≤ (1 - (2 - 2 * t)) * (1 + (2 - 2 * t) + (2 - 2 * t) * (2 - 2 * t)) :=
        mul_nonneg (by linarith)
          (by nlinarith [mul_nonneg hu0 hu0])
      nlinarith [hcube]
    · push_neg at h1
      linarith
    · rw [if_neg h1, if_neg h2]
      push_neg at h1 h2
      have ha0 : (0 : ℚ) ≤ 2 - 2 * t := by linarith
      have hb0 : (0 : ℚ) ≤ 2 - 2 * s := by linarith
      have key : 0 ≤ ((2 - 2 * s) - (2 - 2 * t)) *
          ((2 - 2 * t) * (2 - 2 * t) + (2 - 2 * t) * (2 - 2 * s) + (2 - 2 * s) * (2 - 2 * s)) :=
        mul_nonneg (by linarith)
          (add_nonneg (add_nonneg (mul_nonneg ha0 ha0) (mul_nonneg ha0 hb0))
            (mul_nonneg hb0 hb0))
      nlinarith [key]

/-- Witness for C5: monotonicity applied at the concrete pair 1/4 ≤ 3/4. -/
theorem ease_in_out_cubic_properties_witness :
    ease_in_out_cubic (1/4) ≤ ease_in_out_cubic (3/4) :=
  ease_in_out_cubic_properties.2.2.2.2 (1/4) (3/4) (by norm_num) (by norm_num) (by norm_num)

/-! ## C4: the interpolated extent -/

theorem ease_pos_of_ge (a : ℚ) (h1 : 1/100 ≤ a) (h2 : a ≤ 99/100) :
    0 < ease_in_out_cubic a := by
  unfold ease_in_out_cubic
  rcases lt_or_ge a (1/2) with h | h
  · rw [if_pos h]
    have ha : 0 < a := lt_of_lt_of_le (by norm_num) h1
    positivity
  · rw [if_neg (not_lt.mpr h)]
    have hu0 : (0 : ℚ) ≤ 2 - 2 * a := by linarith
    have hu1 : 2 - 2 * a ≤ 1 := by linarith
    have hcube : 0 ≤ (1 - (2 - 2 * a)) * (1 + (2 - 2 * a) + (2 - 2 * a) * (2 - 2 * a)) :=
      mul_nonneg (by linarith) (by nlinarith [mul_nonneg hu0 hu0])
    nlinarith [hcube]

theorem ease_lt_one_of_le (a : ℚ) (h1 : 1/100 ≤ a) (h2 : a ≤ 99/100) :
    ease_in_out_cubic a < 1 := by
  unfold ease_in_out_cubic
  rcases lt_or_ge a (1/2) with h | h
  · rw [if_pos h]
    have ha : (0 : ℚ) ≤ a := le_trans (by norm_num) h1
    nlinarith [mul_nonneg ha ha]
  · rw [if_neg (not_lt.mpr h)]
    have hu : (0 : ℚ) < 2 - 2 * a := by linarith
    nlinarith [mul_pos (mul_pos hu hu) hu]

/-- C4: the rendered extent is the collapsed constant 26 (= icon size 14 plus
2×6 padding) for progress below 0.01, the validated saved size above 0.99, and
otherwise `26 + (saved - 26) * ease a`; for a saved size above the collapsed
extent the in-between values are strictly between the endpoints. -/
theorem animated_size_interpolation (a saved : ℚ) :
    collapsed_panel_size = 26
    ∧ (a < 1/100 → animated_panel_size a saved = 26)
    ∧ (a > 99/100 → animated_panel_size a saved = saved)
    ∧ (1/100 ≤ a → a ≤ 99/100 →
        animated_panel_size a saved = 26 + (saved - 26) * ease_in_out_cubic a)
    ∧ (26 < saved → 1/100 ≤ a → a ≤ 99/100 →
        26 < animated_panel_size a saved ∧ animated_panel_size a saved < saved) := by
  have hc : collapsed_panel_size = 26 := by norm_num [collapsed_panel_size]
  have hmid : ∀ h1 : 1/100 ≤ a, a ≤ 99/100 →
      animated_panel_size a saved = 26 + (saved - 26) * ease_in_out_cubic a := by
    intro h1 h2
    unfold animated_panel_size
    rw [if_neg (not_lt.mpr h1), if_neg (not_lt.mpr h2), hc]
  refine ⟨hc, ?_, ?_, hmid, ?_⟩
  · intro h
    unfold animated_panel_size
    rw [if_pos h, hc]
  · intro h
    unfold animated_panel_size
    rw [if_neg (by intro hlt; linarith), if_pos h]
  · intro hsaved h1 h2
    rw [hmid h1 h2]
    have hp := ease_pos_of_ge a h1 h2
    have hq := ease_lt_one_of_le a h1 h2
    constructor
    · nlinarith [mul_pos (show (0:ℚ) < saved - 26 by linarith) hp]
    · nlinarith [mul_pos (show (0:ℚ) < saved - 26 by linarith)
        (show (0:ℚ) < 1 - ease_in_out_cubic a by linarith)]

/-- Witness for C4 at `a = 1/2`, `saved = 300`. -/
theorem animated_size_interpolation_witness :
    animated_panel_size (1/2) 300 = 26 + (300 - 26) * ease_in_out_cubic (1/2)
    ∧ 26 < animated_panel_size (1/2) 300 ∧ animated_panel_size (1/2) 300 < 300 := by
  have h := animated_size_interpolation (1/2) 300
  exact ⟨h.2.2.2.1 (by norm_num) (by norm_num),
    h.2.2.2.2 (by norm_num) (by norm_num) (by norm_num)⟩

/-! ## C1: set then get clamps only from above -/

/-- C1: for a present side and a valid size `s` (one passing the code's
100-unit validation floor), `set_size s; get_size` — equivalently
`set_panel_size; get_panel_size` — returns `s` clamped only from above to
`max_size` when present; no lower clamp is applied. -/
theorem set_size_upper_clamp_only (p : CollapsibleDockPanel) (panel : PanelState) (s : ℚ)
    (hside : p.collapsible_state.panels.get p.side = some panel) (hvalid : 100 ≤ s) :
    (p.set_size s).get_size =
      (match panel.max_size with
       | some max_size => min s max_size
       | none => s)
    ∧ (p.collapsible_state.set_panel_size p.side s).get_panel_size p.side =
      (match panel.max_size with
       | some max_size => min s max_size
       | none => s) := by
  have h := get_set_panel_size p.collapsible_state p.side panel s hside
  rw [if_neg (not_lt.mpr hvalid)] at h
  exact ⟨h, h⟩

/-- Witness for C1: a max size of 400 clamps a requested 500 down to 400. -/
theorem set_size_upper_clamp_only_witness :
    (((CollapsibleDockPanel.new PanelSide.Left).with_max_size 400).set_size 500).get_size
      = 400 := by
  have h := set_size_upper_clamp_only
    ((CollapsibleDockPanel.new PanelSide.Left).with_max_size 400)
    { PanelState.default with max_size := some 400 } 500 (by rfl) (by norm_num)
  exact h.1.trans (by norm_num [PanelState.default])

/-! ## C3: reconciliation hysteresis -/

/-- C3 fails as stated: a realized extent of 50 against a stored 300 differs
by more than 5, yet the stored size does not become the realized extent 50 —
`set_panel_size`'s validation keeps it at 300. -/
theorem reconcile_size_counterexample :
    f32_abs (50 - CollapsibleDockState.new.get_panel_size PanelSide.Left) > 5
    ∧ (reconcile_size CollapsibleDockState.new PanelSide.Left false 50).get_panel_size
        PanelSide.Left ≠ 50
    ∧ (reconcile_size CollapsibleDockState.new PanelSide.Left false 50).get_panel_size
        PanelSide.Left = 300 := by
  norm_num [reconcile_size, f32_abs, CollapsibleDockState.get_panel_size,
    CollapsibleDockState.set_panel_size, CollapsibleDockState.new,
    CollapsibleDockState.default, PanelMap.get, PanelMap.set, PanelState.default]

/-- C3 (amended): for a non-collapsed panel on a present side, a realized
extent within 5 of the stored size leaves the state untouched; one differing
by more than 5 updates the stored size to `set_panel_size`'s validated value
of the realized extent (the extent itself if at least 100, else 300, then
clamped to `max_size` when present). -/
theorem reconcile_size_hysteresis (st : CollapsibleDockState) (side : PanelSide)
    (panel : PanelState) (actual : ℚ) (hside : st.panels.get side = some panel) :
    (|actual - st.get_panel_size side| ≤ 5 → reconcile_size st side false actual = st)
    ∧ (|actual - st.get_panel_size side| > 5 →
        (reconcile_size st side false actual).get_panel_size side =
          (match panel.max_size with
           | some max_size => min (if actual < 100 then (300 : ℚ) else actual) max_size
           | none => if actual < 100 then (300 : ℚ) else actual)) := by
  constructor <;> intro h
  · simp only [reconcile_size]
    rw [if_neg (by simp), f32_abs_eq_abs, if_neg (not_lt.mpr h)]
  · simp only [reconcile_size]
    rw [if_neg (by simp), f32_abs_eq_abs, if_pos h]
    exact get_set_panel_size st side panel actual hside

/-- Witness for C3 at a realized extent 400 against a stored 300. -/
theorem reconcile_size_hysteresis_witness :
    (reconcile_size CollapsibleDockState.new PanelSide.Left false 400).get_panel_size
      PanelSide.Left = 400 := by
  have h := reconcile_size_hysteresis CollapsibleDockState.new PanelSide.Left
      PanelState.default 400 (by rfl)
  have h2 := h.2 (by
    rw [show CollapsibleDockState.new.get_panel_size PanelSide.Left = 300 from rfl]
    norm_num)
  exact h2.trans (by norm_num [PanelState.default])

/-! ## C6: first-load size validation -/

/-- C6: on the lazy first-call load, a persisted size for the panel's own side
below the 100 floor is discarded in favour of `max(min_size * 2, 300)` and the
diagnostic is emitted; a persisted size of at least 100 is copied as-is. -/
theorem load_size_validation (p : CollapsibleDockPanel) (st0 : CollapsibleDockState)
    (pers our : PanelState)
    (hp : st0.panels.get p.side = some pers)
    (ho : p.collapsible_state.panels.get p.side = some our) :
    (pers.size < 100 →
        (load_panel_state p (some st0)).1.get_size = max (our.min_size * 2) 300
        ∧ (load_panel_state p (some st0)).2 = true)
    ∧ (100 ≤ pers.size →
        (load_panel_state p (some st0)).1.get_size = pers.size
        ∧ (load_panel_state p (some st0)).2 = false) := by
  unfold load_panel_state CollapsibleDockState.load_from_memory
  simp only [Option.getD_some, hp, ho]
  constructor <;> intro h
  · rw [if_neg (not_le.mpr h)]
    constructor
    · simp [CollapsibleDockPanel.get_size, CollapsibleDockState.get_panel_size,
        PanelMap.get_set_self]
    · rfl
  · rw [if_pos h]
    constructor
    · simp [CollapsibleDockPanel.get_size, CollapsibleDockState.get_panel_size,
        PanelMap.get_set_self]
    · rfl

/-- Witness for C6: a stale persisted 50 is replaced by
`max(150 * 2, 300) = 300` and flagged. -/
theorem load_size_validation_witness :
    (load_panel_state (CollapsibleDockPanel.new PanelSide.Left)
        (some stale_store_state)).1.get_size = 300
    ∧ (load_panel_state (CollapsibleDockPanel.new PanelSide.Left)
        (some stale_store_state)).2 = true := by
  have h := load_size_validation (CollapsibleDockPanel.new PanelSide.Left) stale_store_state
      { PanelState.default with size := 50 } PanelState.default (by rfl) (by rfl)
  have h2 := h.1 (by norm_num)
  exact ⟨h2.1.trans (by norm_num [PanelState.default]), h2.2⟩

/-! ## C9: toggling twice restores the collapse flag -/

/-- C9: on a present side, `toggle_panel` twice restores the panel entry — in
particular `is_panel_collapsed` — to its original value, and likewise
`toggle` twice on a panel restores `is_collapsed`. -/
theorem toggle_twice_restores (st : CollapsibleDockState) (side : PanelSide)
    (panel : PanelState) (hside : st.panels.get side = some panel)
    (p : CollapsibleDockPanel) (panel2 : PanelState)
    (hp : p.collapsible_state.panels.get p.side = some panel2) :
    ((st.toggle_panel side).toggle_panel side).panels.get side = some panel
    ∧ ((st.toggle_panel side).toggle_panel side).is_panel_collapsed side
        = st.is_panel_collapsed side
    ∧ p.toggle.toggle.is_collapsed = p.is_collapsed := by
  have key : ∀ (st2 : CollapsibleDockState) (side2 : PanelSide) (pan : PanelState),
      st2.panels.get side2 = some pan →
      ((st2.toggle_panel side2).toggle_panel side2).panels.get side2 = some pan := by
    intro st2 side2 pan h
    unfold CollapsibleDockState.toggle_panel
    rw [h]
    simp only [PanelMap.get_set_self, Bool.not_not]
  refine ⟨key st side panel hside, ?_, ?_⟩
  · unfold CollapsibleDockState.is_panel_collapsed
    rw [key st side panel hside, hside]
  · unfold CollapsibleDockPanel.toggle CollapsibleDockPanel.is_collapsed
    unfold CollapsibleDockState.is_panel_collapsed
    rw [key p.collapsible_state p.side panel2 hp, hp]

/-- Witness for C9 on the top panel of a fresh state. -/
theorem toggle_twice_restores_witness :
    ((CollapsibleDockState.new.toggle_panel PanelSide.Top).toggle_panel
        PanelSide.Top).is_panel_collapsed PanelSide.Top
      = CollapsibleDockState.new.is_panel_collapsed PanelSide.Top :=
  (toggle_twice_restores CollapsibleDockState.new PanelSide.Top PanelState.default (by rfl)
    (CollapsibleDockPanel.new PanelSide.Right) PanelState.default (by rfl)).2.1

/-! ## C10: active-button bookkeeping -/

/-- C10: a fresh panel reports active button `some 0` even with zero buttons
configured, and `set_active_button i` changes the reported value to `some i`
exactly when `i` indexes a configured button, leaving it unchanged otherwise. -/
theorem active_button_tracking :
    (∀ side, (CollapsibleDockPanel.new side).get_active_button = some 0
        ∧ (CollapsibleDockPanel.new side).buttons = [])
    ∧ ∀ (p : CollapsibleDockPanel) (i : Nat),
        (p.set_active_button i).get_active_button =
          (if i < p.buttons.length then some i else p.get_active_button) := by
  constructor
  · intro side
    exact ⟨rfl, rfl⟩
  · intro p i
    unfold CollapsibleDockPanel.set_active_button CollapsibleDockPanel.get_active_button
    split <;> rfl

/-! ## Frame-pipeline bookkeeping lemmas -/

theorem set_panel_collapsed_persist (st : CollapsibleDockState) (side : PanelSide) (c : Bool) :
    (st.set_panel_collapsed side c).persist_state = st.persist_state := by
  unfold CollapsibleDockState.set_panel_collapsed
  cases st.panels.get side <;> rfl

theorem set_panel_size_persist (st : CollapsibleDockState) (side : PanelSide) (s : ℚ) :
    (st.set_panel_size side s).persist_state = st.persist_state := by
  unfold CollapsibleDockState.set_panel_size
  cases st.panels.get side <;> rfl

theorem reconcile_size_persist (st : CollapsibleDockState) (side : PanelSide) (c : Bool)
    (a : ℚ) : (reconcile_size st side c a).persist_state = st.persist_state := by
  simp only [reconcile_size]
  split
  · rfl
  · split
    · exact set_panel_size_persist st side a
    · rfl

theorem set_collapsed_persist (p : CollapsibleDockPanel) (c : Bool) :
    (p.set_collapsed c).collapsible_state.persist_state
      = p.collapsible_state.persist_state :=
  set_panel_collapsed_persist p.collapsible_state p.side c

theorem expand_caret_step_fields (p : CollapsibleDockPanel) (input : FrameInput) :
    (expand_caret_step p input).collapsible_state.persist_state
        = p.collapsible_state.persist_state
    ∧ (expand_caret_step p input).state_loaded = p.state_loaded := by
  unfold expand_caret_step
  cases p.side <;> dsimp only
  · exact ⟨rfl, rfl⟩
  · exact ⟨rfl, rfl⟩
  · constructor
    · split
      · exact set_collapsed_persist p false
      · rfl
    · split <;> rfl
  · constructor
    · split
      · exact set_collapsed_persist p false
      · rfl
    · split <;> rfl

theorem button_click_step_fields (p : CollapsibleDockPanel) (input : FrameInput) :
    (button_click_step p input).collapsible_state.persist_state
        = p.collapsible_state.persist_state
    ∧ (button_click_step p input).state_loaded = p.state_loaded := by
  unfold button_click_step
  cases input.clicked_button <;> dsimp only
  · exact ⟨rfl, rfl⟩
  · constructor
    · split
      · exact set_collapsed_persist p false
      · rfl
    · split <;> rfl

theorem apply_collapsed_clicks_fields (p : CollapsibleDockPanel) (input : FrameInput) :
    (apply_collapsed_clicks p input).collapsible_state.persist_state
        = p.collapsible_state.persist_state
    ∧ (apply_collapsed_clicks p input).state_loaded = p.state_loaded := by
  unfold apply_collapsed_clicks
  exact ⟨(button_click_step_fields _ _).1.trans (expand_caret_step_fields p input).1,
    (button_click_step_fields _ _).2.trans (expand_caret_step_fields p input).2⟩

theorem load_panel_state_fields (p : CollapsibleDockPanel)
    (store : Option CollapsibleDockState) :
    (load_panel_state p store).1.side = p.side
    ∧ (load_panel_state p store).1.buttons = p.buttons
    ∧ (load_panel_state p store).1.collapsible_state.persist_state
        = p.collapsible_state.persist_state
    ∧ (load_panel_state p store).1.state_loaded = p.state_loaded := by
  simp only [load_panel_state]
  cases (CollapsibleDockState.load_from_memory store).panels.get p.side <;> dsimp only
  · exact ⟨rfl, rfl, rfl, rfl⟩
  · cases p.collapsible_state.panels.get p.side <;> dsimp only
    · exact ⟨rfl, rfl, rfl, rfl⟩
    · exact ⟨rfl, rfl, rfl, rfl⟩

theorem after_load_fields (p : CollapsibleDockPanel) (store : Option CollapsibleDockState) :
    (p.after_load store).1.side = p.side
    ∧ (p.after_load store).1.buttons = p.buttons
    ∧ (p.after_load store).1.collapsible_state.persist_state
        = p.collapsible_state.persist_state
    ∧ (p.after_load store).1.state_loaded = true := by
  unfold CollapsibleDockPanel.after_load
  split
  · next h => exact ⟨rfl, rfl, rfl, h⟩
  · exact ⟨(load_panel_state_fields p store).1, (load_panel_state_fields p store).2.1,
      (load_panel_state_fields p store).2.2.1, rfl⟩

theorem after_load_of_loaded (p : CollapsibleDockPanel) (store : Option CollapsibleDockState)
    (h : p.state_loaded = true) : p.after_load store = (p, false) := by
  unfold CollapsibleDockPanel.after_load
  rw [if_pos h]

theorem panel_constraints_resizable (b : Bool) (ps : PanelState) (v a : ℚ) :
    (panel_constraints b ps v a).resizable = b := by
  cases b <;> rfl

theorem show_panel_unified_fields (p : CollapsibleDockPanel) (c : Bool) (input : FrameInput)
    (q2 : CollapsibleDockPanel) (render : RenderInfo)
    (h : show_panel_unified p c input = some (q2, render)) :
    q2.collapsible_state.persist_state = p.collapsible_state.persist_state
    ∧ q2.state_loaded = p.state_loaded := by
  unfold show_panel_unified at h
  cases hps : p.collapsible_state.panels.get p.side
  · rw [hps] at h
    simp at h
  · rw [hps] at h
    simp only [Option.some.injEq, Prod.mk.injEq] at h
    obtain ⟨hq, hr⟩ := h
    rw [← hq]
    dsimp only
    constructor
    · rw [reconcile_size_persist]
      split
      · exact (apply_collapsed_clicks_fields p input).1
      · rfl
    · split
      · exact (apply_collapsed_clicks_fields p input).2
      · rfl

/-! ## C8: resizability gating -/

/-- C8: the region is drag-resizable exactly when the panel is not collapsed,
the per-panel `resizable` flag is set, and the animation value exceeds 0.99;
in any other combination the region's min/max/default extents are all locked
to the interpolated extent. -/
theorem resizable_gating (p : CollapsibleDockPanel) (is_collapsed : Bool)
    (input : FrameInput) (panel_state : PanelState) (q2 : CollapsibleDockPanel)
    (render : RenderInfo)
    (hps : p.collapsible_state.panels.get p.side = some panel_state)
    (h : show_panel_unified p is_collapsed input = some (q2, render)) :
    render.constraints.resizable
        = (!is_collapsed && panel_state.resizable && decide (input.animation_value > 99/100))
    ∧ render.animated_size
        = animated_panel_size input.animation_value
            (validate_saved_size p.get_size panel_state.min_size)
    ∧ (render.constraints.resizable = false →
        render.constraints =
          { min_extent := render.animated_size, max_extent := some render.animated_size,
            default_extent := render.animated_size, resizable := false }) := by
  unfold show_panel_unified at h
  rw [hps] at h
  simp only [Option.some.injEq, Prod.mk.injEq] at h
  obtain ⟨hq, hr⟩ := h
  rw [← hr]
  dsimp only
  refine ⟨?_, rfl, ?_⟩
  · rw [panel_constraints_resizable]
    rfl
  · intro hfalse
    rw [panel_constraints_resizable] at hfalse
    rw [hfalse]
    rfl

/-- Witness for C8: a fresh left panel rendered mid-animation (value 1/2) is
not resizable and its region is locked to the interpolated extent. -/
theorem resizable_gating_witness :
    mid_render.constraints =
      { min_extent := mid_render.animated_size, max_extent := some mid_render.animated_size,
        default_extent := mid_render.animated_size, resizable := false } := by
  have hshow : show_panel_unified (CollapsibleDockPanel.new PanelSide.Left) false input_mid
      = some (CollapsibleDockPanel.new PanelSide.Left, mid_render) := by
    norm_num [show_panel_unified, CollapsibleDockPanel.get_size,
      CollapsibleDockState.get_panel_size, CollapsibleDockPanel.new,
      CollapsibleDockState.new, CollapsibleDockState.default, PanelState.default,
      PanelMap.get, input_mid, validate_saved_size, animated_panel_size,
      collapsed_panel_size, ease_in_out_cubic, panel_is_resizable, panel_constraints,
      panel_content, reconcile_size, f32_abs, mid_render]
  have h := resizable_gating (CollapsibleDockPanel.new PanelSide.Left) false input_mid
      PanelState.default (CollapsibleDockPanel.new PanelSide.Left) mid_render rfl hshow
  exact h.2.2 rfl

/-! ## C2: load-once and write-back -/

/-- The body of `show` once the lazy load is behind the panel
(`state_loaded = true`): the load block is skipped entirely. -/
theorem show_shape (p : CollapsibleDockPanel) (store : Option CollapsibleDockState)
    (input : FrameInput) (h : p.state_loaded = true) :
    p.show store input =
      (if p.is_collapsed && p.buttons.isEmpty then
         some { panel := { p with previous_collapsed := p.is_collapsed },
                store := store, response := none, load_diag := false }
       else
         match show_panel_unified { p with previous_collapsed := p.is_collapsed }
             p.is_collapsed input with
         | none => none
         | some (q2, render) =>
             some { panel := q2, store := q2.collapsible_state.save_to_memory store,
                    response := some render, load_diag := false }) := by
  unfold CollapsibleDockPanel.show
  rw [after_load_of_loaded p store h]

/-- C2 fails as stated: a collapsed panel with no buttons takes the early
return of `show` (line 347) before `save_to_memory` (line 359), so that call
writes nothing back even though persistence is enabled. -/
theorem show_writeback_counterexample :
    (collapsed_empty_panel.show none input_done).map ShowOutcome.store = some none
    ∧ collapsed_empty_panel.collapsible_state.persist_state = true := by
  exact ⟨rfl, rfl⟩

/-- C2 (amended): `show` sets `state_loaded`, a call on an already-loaded
panel never consults the store (its resulting panel and response are
store-independent), and the state is written back after every `show` call
that renders the region — the early return for a collapsed panel with no
configured buttons skips the write-back. -/
theorem show_load_once_and_persist (p : CollapsibleDockPanel)
    (store store2 : Option CollapsibleDockState) (input : FrameInput) :
    (∀ out : ShowOutcome, p.show store input = some out → out.panel.state_loaded = true)
    ∧ (p.state_loaded = true →
        (p.show store input).map ShowOutcome.panel
            = (p.show store2 input).map ShowOutcome.panel
        ∧ (p.show store input).map ShowOutcome.response
            = (p.show store2 input).map ShowOutcome.response)
    ∧ (∀ out : ShowOutcome, p.show store input = some out →
        p.collapsible_state.persist_state = true → out.response.isSome = true →
        out.store = some out.panel.collapsible_state) := by
  refine ⟨?_, ?_, ?_⟩
  · intro out h
    simp only [CollapsibleDockPanel.show] at h
    split at h
    · have hout := Option.some.inj h
      rw [← hout]
      exact (after_load_fields p store).2.2.2
    · split at h
      · simp at h
      · rename_i q2 render hsu
        have hout := Option.some.inj h
        rw [← hout]
        dsimp only
        rw [(show_panel_unified_fields _ _ _ _ _ hsu).2]
        exact (after_load_fields p store).2.2.2
  · intro hl
    rw [show_shape p store input hl, show_shape p store2 input hl]
    cases show_panel_unified { p with previous_collapsed := p.is_collapsed }
        p.is_collapsed input with
    | none => constructor <;> (split <;> rfl)
    | some pr =>
        cases pr with
        | mk q2 render => constructor <;> (split <;> rfl)
  · intro out h hpersist hresp
    simp only [CollapsibleDockPanel.show] at h
    split at h
    · have hout := Option.some.inj h
      rw [← hout] at hresp
      simp at hresp
    · split at h
      · simp at h
      · rename_i q2 render hsu
        have hout := Option.some.inj h
        have hps : q2.collapsible_state.persist_state = true := by
          rw [(show_panel_unified_fields _ _ _ _ _ hsu).1]
          exact ((after_load_fields p store).2.2.1).trans hpersist
        rw [← hout]
        dsimp only
        unfold CollapsibleDockState.save_to_memory
        rw [if_pos hps]

/-- Witness for C2: a loaded, expanded, button-less left panel shows the
store-independence of the rendered frame and the write-back of its state. -/
theorem show_load_once_and_persist_witness :
    ((loaded_left_panel.show none input_done).map ShowOutcome.panel
        = (loaded_left_panel.show (some CollapsibleDockState.new) input_done).map
            ShowOutcome.panel)
    ∧ loaded_left_outcome.store = some loaded_left_outcome.panel.collapsible_state := by
  have h := show_load_once_and_persist loaded_left_panel none
      (some CollapsibleDockState.new) input_done
  have hshow : loaded_left_panel.show none input_done = some loaded_left_outcome := by
    norm_num [CollapsibleDockPanel.show, CollapsibleDockPanel.after_load,
      CollapsibleDockPanel.is_collapsed, CollapsibleDockState.is_panel_collapsed,
      show_panel_unified, CollapsibleDockPanel.get_size,
      CollapsibleDockState.get_panel_size, CollapsibleDockState.save_to_memory,
      loaded_left_panel, CollapsibleDockPanel.new, CollapsibleDockState.new,
      CollapsibleDockState.default, PanelState.default, PanelMap.get, input_done,
      validate_saved_size, animated_panel_size, collapsed_panel_size,
      ease_in_out_cubic, panel_is_resizable, panel_constraints, panel_content,
      reconcile_size, f32_abs, loaded_left_outcome]
  exact ⟨(h.2.1 rfl).1, h.2.2 loaded_left_outcome hshow rfl rfl⟩

/-! ## C7: show returns nothing iff collapsed with no buttons -/

/-- C7: a `show` call that does not panic returns no response exactly when
the panel (after the lazy load) is collapsed and its configured button list
is empty; in every other case it returns a response. -/
theorem show_none_iff_collapsed_no_buttons (p : CollapsibleDockPanel)
    (store : Option CollapsibleDockState) (input : FrameInput) (out : ShowOutcome)
    (h : p.show store input = some out) :
    (out.response = none
      ↔ ((p.after_load store).1.is_collapsed = true ∧ p.buttons = [])) := by
  simp only [CollapsibleDockPanel.show] at h
  split at h
  · rename_i hcond
    have hout := Option.some.inj h
    rw [← hout]
    rw [Bool.and_eq_true] at hcond
    constructor
    · intro _
      refine ⟨hcond.1, ?_⟩
      have hb : (p.after_load store).1.buttons.isEmpty = true := hcond.2
      rw [(after_load_fields p store).2.1] at hb
      exact List.isEmpty_iff.mp hb
    · intro _
      rfl
  · rename_i hcond
    split at h
    · simp at h
    · rename_i q2 render hsu
      have hout := Option.some.inj h
      rw [← hout]
      dsimp only
      constructor
      · intro hr
        exact absurd hr (by simp)
      · rintro ⟨hcol, hbtn⟩
        exfalso
        apply hcond
        rw [Bool.and_eq_true]
        refine ⟨hcol, ?_⟩
        show (p.after_load store).1.buttons.isEmpty = true
        rw [(after_load_fields p store).2.1, hbtn]
        rfl

/-- Witness for C7: the collapsed button-less panel yields no response. -/
theorem show_none_iff_collapsed_no_buttons_witness :
    collapsed_empty_outcome.response = none :=
  (show_none_iff_collapsed_no_buttons collapsed_empty_panel none input_done
      collapsed_empty_outcome rfl).mpr ⟨rfl, rfl⟩
